import Mathlib

/-!
Verification development for the audio-transcription pipeline in `src/main.py`.

Modelling conventions:
* Durations and offsets are in milliseconds (`Nat`); the source's float
  `duration = len(audio) / 1000.0` seconds compared against the integer
  `chunk_length` seconds is rendered as `lenMs > chunk_length * 1000`,
  which is equivalent for natural inputs.
* An audio chunk is identified by its half-open `(start, end)` offsets
  (milliseconds) inside the converted buffer; `pydub` slicing
  `audio[i:i+L]` clamps the end at `len(audio)`.
* The external recognizer call (`recognizer.recognize_google` /
  `recognize_sphinx`) is abstracted by a `BackendResult` per chunk:
  it either returns text, raises `sr.UnknownValueError`, raises
  `sr.RequestError`, or raises some other exception.  The per-chunk
  outcome function `results : Nat × Nat → BackendResult` stands for the
  backend's (deterministic, language-dependent) response to the audio
  slice at those offsets.
* Temporary file names produced by `tempfile.NamedTemporaryFile` are
  abstracted by a supply `names : Nat → Nat` (call-site order:
  `names 0` is the converted WAV, `names (i+1)` the file for chunk `i`).
-/

namespace Transcricao

/-- The literal returned on `sr.UnknownValueError` (src/main.py lines 103, 118),
the "empty result" marker. -/
def unintelligibleMsg : String := "Não foi possível entender o áudio"

/-- The literal used by `main` when a chunked run records no units
(src/main.py line 301). -/
def noTranscriptMsg : String := "Não foi possível transcrever o áudio"

/-- Outcome of one call to the external recognizer on one audio file. -/
inductive BackendResult where
  | ok (text : String)
  | unknownValue
  | requestError (msg : String)
  | otherError (msg : String)
deriving DecidableEq, Repr

/-- `transcribe_with_google` (src/main.py lines 93-107): catches
`UnknownValueError` and `RequestError`, turning them into strings; the second
component is the engine label.  The `language` argument of the source only
influences the external response, which is already abstracted in the
`BackendResult`. -/
def transcribe_with_google (r : BackendResult) : String × String :=
  match r with
  | .ok t => (t, "Google Speech Recognition")
  | .unknownValue => (unintelligibleMsg, "Google Speech Recognition")
  | .requestError e => ("Erro na solicitação: " ++ e, "Google Speech Recognition")
  | .otherError e => ("Erro: " ++ e, "Google Speech Recognition")

/-- `transcribe_with_sphinx` (src/main.py lines 109-120): it has no
`RequestError` clause, so a request failure falls into the generic
`except Exception` branch. -/
def transcribe_with_sphinx (r : BackendResult) : String × String :=
  match r with
  | .ok t => (t, "PocketSphinx (Offline)")
  | .unknownValue => (unintelligibleMsg, "PocketSphinx (Offline)")
  | .requestError e => ("Erro: " ++ e, "PocketSphinx (Offline)")
  | .otherError e => ("Erro: " ++ e, "PocketSphinx (Offline)")

/-- The text obtained for a chunk (src/main.py lines 150-153): google engine
uses the google wrapper, anything else the sphinx wrapper. -/
def engineText (engine : String) (r : BackendResult) : String :=
  if engine = "google" then (transcribe_with_google r).1 else (transcribe_with_sphinx r).1

/-- Whitespace as stripped by Python's `str.strip()` (the common ASCII set). -/
def isPySpace (c : Char) : Bool :=
  c == ' ' || c == '\t' || c == '\n' || c == '\r'

/-- Drop leading whitespace characters. -/
def dropLeadingSpaces : List Char → List Char
  | [] => []
  | c :: cs => if isPySpace c then dropLeadingSpaces cs else c :: cs

/-- Python's `str.strip()`: remove whitespace at both ends. -/
def pyStrip (s : String) : String :=
  String.mk ((dropLeadingSpaces ((dropLeadingSpaces s.data).reverse)).reverse)

/-- Python's `str.title()` restricted to the single lowercase words used as
engine identifiers ("google", "sphinx"). -/
def pyTitle (s : String) : String :=
  match s.data with
  | [] => ""
  | c :: cs => String.mk (c.toUpper :: cs.map Char.toLower)

/-- A pydub `AudioSegment`, reduced to the attributes the pipeline reads. -/
structure AudioSeg where
  channels : Nat
  frame_rate : Nat
  lenMs : Nat
deriving DecidableEq, Repr

/-- `AudioSegment.set_channels` (duration preserved). -/
def set_channels (a : AudioSeg) (n : Nat) : AudioSeg := { a with channels := n }

/-- `AudioSegment.set_frame_rate` (duration in ms preserved). -/
def set_frame_rate (a : AudioSeg) (r : Nat) : AudioSeg := { a with frame_rate := r }

/-- `convert_audio_to_wav` (src/main.py lines 76-91): `none` models the decode
failure path (`AudioSegment.from_file` raising, caught, returning `(None, 0)`);
on success it downmixes to one channel, resamples to 16 kHz and returns the
buffer together with its duration (kept in ms here). -/
def convert_audio_to_wav (decoded : Option AudioSeg) : Option (AudioSeg × Nat) :=
  match decoded with
  | none => none
  | some audio =>
    let out := set_frame_rate (set_channels audio 1) 16000
    some (out, out.lenMs)

/-- Number of fixed-duration windows: the length of
`range(0, lenMs, L)` in Python, i.e. `⌈lenMs / L⌉` for `L > 0`. -/
def numChunks (lenMs L : Nat) : Nat := (lenMs + L - 1) / L

/-- The fixed-duration fallback `[audio[i:i+chunk_length_ms] for i in
range(0, len(audio), chunk_length_ms)]` (src/main.py line 139), with pydub
slicing clamping the end offset at the buffer length. -/
def fixedChunks (lenMs L : Nat) : List (Nat × Nat) :=
  (List.range (numChunks lenMs L)).map (fun j => (j * L, min ((j + 1) * L) lenMs))

/-- Chunk selection (src/main.py lines 129-139): the result of
`split_on_silence` (abstract, any list of slices) is replaced by the
fixed-duration slicing exactly when it has length 1. -/
def applyFallback (silenceChunks : List (Nat × Nat)) (lenMs L : Nat) : List (Nat × Nat) :=
  if silenceChunks.length = 1 then fixedChunks lenMs L else silenceChunks

/-- One recorded row of the `transcriptions` list (src/main.py lines 156-160). -/
structure TranscriptionUnit where
  chunk : Nat
  start_time : Nat
  text : String
deriving DecidableEq, Repr

/-- The conditional append in the chunk loop (src/main.py lines 155-160):
record a unit only when the text is truthy and not the unintelligible marker;
the stored text is stripped, the start time is `i * chunk_length` seconds. -/
def recordUnit (engine : String) (chunk_length i : Nat) (r : BackendResult) :
    Option TranscriptionUnit :=
  if engineText engine r ≠ "" ∧ engineText engine r ≠ unintelligibleMsg then
    some ⟨i + 1, i * chunk_length, pyStrip (engineText engine r)⟩
  else none

/-- The `transcriptions` accumulated by the `for i, chunk in enumerate(chunks)`
loop (src/main.py lines 144-160), starting at index `i`. -/
def loopUnits (engine : String) (chunk_length : Nat) (results : Nat × Nat → BackendResult) :
    Nat → List (Nat × Nat) → List TranscriptionUnit
  | _, [] => []
  | i, c :: rest =>
    (recordUnit engine chunk_length i (results c)).toList
      ++ loopUnits engine chunk_length results (i + 1) rest

/-- The temporary chunk files touched by the same loop: each iteration creates
`names (i+1)` (line 146) and unlinks it (line 163) before the next one. -/
def loopFiles (names : Nat → Nat) : Nat → List (Nat × Nat) → List Nat
  | _, [] => []
  | i, _ :: rest => names (i + 1) :: loopFiles names (i + 1) rest

/-- `transcribe_large_audio` (src/main.py lines 122-172): chunk the audio,
run the per-chunk loop, return `(transcriptions, engine.title())` plus the
chunk files it created (and deleted). -/
def transcribe_large_audio (engine : String) (chunk_length : Nat)
    (results : Nat × Nat → BackendResult) (names : Nat → Nat)
    (silenceChunks : List (Nat × Nat)) (lenMs : Nat) :
    (List TranscriptionUnit × String) × List Nat :=
  ((loopUnits engine chunk_length results 0 (applyFallback silenceChunks lenMs (chunk_length * 1000)),
    pyTitle engine),
   loopFiles names 0 (applyFallback silenceChunks lenMs (chunk_length * 1000)))

/-- `full_text` as computed by `main` for a chunked run
(src/main.py lines 298-301). -/
def full_text_of (ts : List TranscriptionUnit) : String :=
  if ts.isEmpty then noTranscriptMsg
  else String.intercalate " " (ts.map TranscriptionUnit.text)

/-- Observable outcome of one button press in `main` (src/main.py
lines 277-327): the temp files created and deleted, the audio ranges the
selected backend was invoked on, the `transcriptions` list, the `full_text`,
and whether the run ended on an error return. -/
structure RunOutcome where
  created : List Nat
  deleted : List Nat
  invoked : List (Nat × Nat)
  transcriptions : List TranscriptionUnit
  full_text : String
  failed : Bool
deriving DecidableEq, Repr

/-- `main`'s transcription block (src/main.py lines 277-327).  `decodeOk`
false models `convert_audio_to_wav` failing to decode (returning `None`): the
run errors out at line 284 having created no temp file.  Otherwise the
converted WAV `names 0` is created; the run dispatches on
`duration > chunk_length` (line 291), the chunked path invoking the backend
once per chunk and the short path once on the whole buffer (lines 305-314),
and `names 0` is unlinked at line 319. -/
def mainRun (decodeOk : Bool) (engine : String) (chunk_length : Nat)
    (results : Nat × Nat → BackendResult) (names : Nat → Nat)
    (silenceChunks : List (Nat × Nat)) (lenMs : Nat) : RunOutcome :=
  if decodeOk then
    if lenMs > chunk_length * 1000 then
      let r := transcribe_large_audio engine chunk_length results names silenceChunks lenMs
      { created := names 0 :: r.2
        deleted := r.2 ++ [names 0]
        invoked := applyFallback silenceChunks lenMs (chunk_length * 1000)
        transcriptions := r.1.1
        full_text := full_text_of r.1.1
        failed := false }
    else
      let text := engineText engine (results (0, lenMs))
      { created := [names 0]
        deleted := [names 0]
        invoked := [(0, lenMs)]
        transcriptions := if text ≠ unintelligibleMsg then [⟨1, 0, text⟩] else []
        full_text := text
        failed := false }
  else
    { created := [], deleted := [], invoked := [], transcriptions := [],
      full_text := "", failed := true }

/-- `format_timestamp` (src/main.py lines 174-179); `f"{n:02d}"` pads to at
least two digits with zeros. -/
def pad2 (n : Nat) : String := if n < 10 then "0" ++ toString n else toString n

/-- `format_timestamp` (src/main.py lines 174-179). -/
def format_timestamp (seconds : Nat) : String :=
  pad2 (seconds / 3600) ++ ":" ++ pad2 ((seconds % 3600) / 60) ++ ":" ++ pad2 (seconds % 60)

/-- The per-unit line of the timestamped listing (src/main.py line 353,
`show_timestamps` enabled). -/
def chunkLine (t : TranscriptionUnit) : String :=
  "**Chunk " ++ toString t.chunk ++ " [" ++ format_timestamp t.start_time ++ "]**: " ++ t.text

/-- Modelled from the spec's words (§4.4 step 3), for refinement comparison
only: "concatenate all non-empty unit texts in index order with a single
space separator". -/
def specFullText (ts : List TranscriptionUnit) : String :=
  String.intercalate " " ((ts.map TranscriptionUnit.text).filter (fun t => t != ""))

/-- Whether `pat` occurs at the head of `l`. -/
def startsWithSeq : List Char → List Char → Bool
  | _, [] => true
  | [], _ :: _ => false
  | c :: cs, p :: ps => c == p && startsWithSeq cs ps

/-- Whether `pat` occurs anywhere inside `l` (substring search over the
character list). -/
def hasSeq : List Char → List Char → Bool
  | [], pat => pat.isEmpty
  | c :: tl, pat => startsWithSeq (c :: tl) pat || hasSeq tl pat

/-! ## Helper lemmas -/

/-- Both wrappers turn `UnknownValueError` into the marker text. -/
lemma engineText_unknown (engine : String) :
    engineText engine BackendResult.unknownValue = unintelligibleMsg := by
  unfold engineText transcribe_with_google transcribe_with_sphinx
  split <;> rfl

lemma engineText_google_requestError (m : String) :
    engineText "google" (BackendResult.requestError m) = "Erro na solicitação: " ++ m := rfl

lemma engineText_google_ok (t : String) :
    engineText "google" (BackendResult.ok t) = t := rfl

/-- The stringified request error is never the empty string. -/
lemma errSolic_ne_empty (m : String) : ("Erro na solicitação: " ++ m) ≠ "" := by
  intro h
  have hlen : ("Erro na solicitação: " ++ m).length = 0 := by rw [h]; rfl
  rw [String.length_append] at hlen
  have h21 : ("Erro na solicitação: " : String).length = 21 := by decide
  omega

/-- The stringified request error is never the unintelligible marker
(they differ at the first character). -/
lemma errSolic_ne_marker (m : String) :
    ("Erro na solicitação: " ++ m) ≠ unintelligibleMsg := by
  intro h
  have h0 : (("Erro na solicitação: " ++ m).data).head? = unintelligibleMsg.data.head? := by
    rw [h]
  rw [String.data_append] at h0
  rw [show ("Erro na solicitação: " : String).data
        = 'E' :: ("rro na solicitação: " : String).data from by decide] at h0
  rw [List.cons_append, List.head?_cons] at h0
  exact absurd h0 (by decide)

lemma recordUnit_eq_some {engine : String} {L i : Nat} {r : BackendResult}
    {u : TranscriptionUnit} (h : recordUnit engine L i r = some u) :
    u = ⟨i + 1, i * L, pyStrip (engineText engine r)⟩
      ∧ engineText engine r ≠ "" ∧ engineText engine r ≠ unintelligibleMsg := by
  unfold recordUnit at h
  by_cases hc : engineText engine r ≠ "" ∧ engineText engine r ≠ unintelligibleMsg
  · rw [if_pos hc] at h
    exact ⟨(Option.some.inj h).symm, hc⟩
  · rw [if_neg hc] at h
    exact absurd h (by simp)

lemma recordUnit_of_marker {engine : String} {L i : Nat} {r : BackendResult}
    (h : engineText engine r = unintelligibleMsg) :
    recordUnit engine L i r = none := by
  unfold recordUnit
  rw [if_neg]
  intro hc
  exact hc.2 h

/-- Membership in the loop's `transcriptions` list: exactly the units recorded
for some in-range chunk position. -/
lemma mem_loopUnits {engine : String} {L : Nat} {results : Nat × Nat → BackendResult} :
    ∀ (cs : List (Nat × Nat)) (i : Nat) (u : TranscriptionUnit),
      u ∈ loopUnits engine L results i cs ↔
        ∃ j, j < cs.length ∧ recordUnit engine L (i + j) (results (cs.getD j (0, 0))) = some u := by
  intro cs
  induction cs with
  | nil => intro i u; simp [loopUnits]
  | cons c rest ih =>
    intro i u
    constructor
    · intro hu
      rcases List.mem_append.mp hu with h1 | h2
      · refine ⟨0, by simp, ?_⟩
        simpa [Option.mem_toList] using h1
      · rcases (ih (i + 1) u).mp h2 with ⟨j, hj, hrec⟩
        refine ⟨j + 1, by simp only [List.length_cons]; omega, ?_⟩
        rw [show i + (j + 1) = (i + 1) + j from by omega]
        simpa using hrec
    · rintro ⟨j, hj, hrec⟩
      cases j with
      | zero =>
        apply List.mem_append.mpr
        left
        simp only [Nat.add_zero] at hrec
        simpa [Option.mem_toList] using hrec
      | succ j' =>
        apply List.mem_append.mpr
        right
        simp only [List.length_cons] at hj
        refine (ih (i + 1) u).mpr ⟨j', by omega, ?_⟩
        rw [show (i + 1) + j' = i + (j' + 1) from by omega]
        simpa using hrec

/-- Every unit recorded from position `i` onwards has chunk index above `i`. -/
lemma loopUnits_chunk_gt {engine : String} {L : Nat} {results : Nat × Nat → BackendResult}
    (cs : List (Nat × Nat)) (i : Nat) (u : TranscriptionUnit)
    (hu : u ∈ loopUnits engine L results i cs) : i < u.chunk := by
  rcases (mem_loopUnits cs i u).mp hu with ⟨j, _, hrec⟩
  rcases recordUnit_eq_some hrec with ⟨rfl, -⟩
  simp
  omega

/-- The recorded units appear in strictly increasing chunk-index order. -/
lemma loopUnits_pairwise {engine : String} {L : Nat} {results : Nat × Nat → BackendResult} :
    ∀ (cs : List (Nat × Nat)) (i : Nat),
      List.Pairwise (fun a b : TranscriptionUnit => a.chunk < b.chunk)
        (loopUnits engine L results i cs) := by
  intro cs
  induction cs with
  | nil => intro i; simp [loopUnits]
  | cons c rest ih =>
    intro i
    apply List.pairwise_append.mpr
    refine ⟨?_, ih (i + 1), ?_⟩
    · cases recordUnit engine L i (results c) <;> simp
    · intro a ha b hb
      have hb' := loopUnits_chunk_gt rest (i + 1) b hb
      have ha' : a.chunk = i + 1 := by
        rw [Option.mem_toList] at ha
        rcases recordUnit_eq_some ha with ⟨rfl, -⟩
        rfl
      omega

lemma numChunks_pos {lenMs L : Nat} (hlen : 0 < lenMs) (hL : 0 < L) :
    0 < numChunks lenMs L := by
  unfold numChunks
  rw [Nat.lt_iff_add_one_le, Nat.zero_add, Nat.le_div_iff_mul_le hL]
  omega

/-- The fixed windows cover the whole buffer: `lenMs ≤ n * L`. -/
lemma len_le_numChunks_mul {lenMs L : Nat} (hL : 0 < L) :
    lenMs ≤ numChunks lenMs L * L := by
  have h : (lenMs + L - 1) / L < numChunks lenMs L + 1 := Nat.lt_succ_self _
  rw [Nat.div_lt_iff_lt_mul hL, Nat.succ_mul] at h
  omega

/-- The last window starts strictly inside the buffer. -/
lemma numChunks_pred_mul_lt {lenMs L : Nat} (hlen : 0 < lenMs) (hL : 0 < L) :
    (numChunks lenMs L - 1) * L < lenMs := by
  have h : numChunks lenMs L ≤ (lenMs + L - 1) / L := Nat.le_refl _
  rw [Nat.le_div_iff_mul_le hL] at h
  rw [Nat.sub_one_mul]
  omega

lemma fixedChunks_length (lenMs L : Nat) :
    (fixedChunks lenMs L).length = numChunks lenMs L := by
  simp [fixedChunks]

lemma fixedChunks_getD {lenMs L j : Nat} (h : j < numChunks lenMs L) :
    (fixedChunks lenMs L).getD j (0, 0) = (j * L, min ((j + 1) * L) lenMs) := by
  unfold fixedChunks
  rw [List.getD_eq_getElem?_getD, List.getElem?_map, List.getElem?_range h]
  rfl

/-- Projection of `mainRun` on the chunked path. -/
lemma mainRun_chunked (engine : String) (L : Nat) (results : Nat × Nat → BackendResult)
    (names : Nat → Nat) (silence : List (Nat × Nat)) (lenMs : Nat)
    (h : lenMs > L * 1000) :
    mainRun true engine L results names silence lenMs =
      { created := names 0 :: loopFiles names 0 (applyFallback silence lenMs (L * 1000))
        deleted := loopFiles names 0 (applyFallback silence lenMs (L * 1000)) ++ [names 0]
        invoked := applyFallback silence lenMs (L * 1000)
        transcriptions := loopUnits engine L results 0 (applyFallback silence lenMs (L * 1000))
        full_text := full_text_of (loopUnits engine L results 0 (applyFallback silence lenMs (L * 1000)))
        failed := false } := by
  simp [mainRun, transcribe_large_audio, h]

/-- Projection of `mainRun` on the short-audio path. -/
lemma mainRun_short (engine : String) (L : Nat) (results : Nat × Nat → BackendResult)
    (names : Nat → Nat) (silence : List (Nat × Nat)) (lenMs : Nat)
    (h : ¬ lenMs > L * 1000) :
    mainRun true engine L results names silence lenMs =
      { created := [names 0]
        deleted := [names 0]
        invoked := [(0, lenMs)]
        transcriptions :=
          if engineText engine (results (0, lenMs)) ≠ unintelligibleMsg then
            [⟨1, 0, engineText engine (results (0, lenMs))⟩] else []
        full_text := engineText engine (results (0, lenMs))
        failed := false } := by
  simp [mainRun, h]

lemma mainRun_chunked_ts (engine : String) (L : Nat) (results : Nat × Nat → BackendResult)
    (names : Nat → Nat) (silence : List (Nat × Nat)) (lenMs : Nat) (h : lenMs > L * 1000) :
    (mainRun true engine L results names silence lenMs).transcriptions
      = loopUnits engine L results 0 (applyFallback silence lenMs (L * 1000)) := by
  rw [mainRun_chunked engine L results names silence lenMs h]

lemma mainRun_chunked_full_text (engine : String) (L : Nat) (results : Nat × Nat → BackendResult)
    (names : Nat → Nat) (silence : List (Nat × Nat)) (lenMs : Nat) (h : lenMs > L * 1000) :
    (mainRun true engine L results names silence lenMs).full_text
      = full_text_of (loopUnits engine L results 0 (applyFallback silence lenMs (L * 1000))) := by
  rw [mainRun_chunked engine L results names silence lenMs h]

lemma mainRun_chunked_failed (engine : String) (L : Nat) (results : Nat × Nat → BackendResult)
    (names : Nat → Nat) (silence : List (Nat × Nat)) (lenMs : Nat) (h : lenMs > L * 1000) :
    (mainRun true engine L results names silence lenMs).failed = false := by
  rw [mainRun_chunked engine L results names silence lenMs h]

lemma mainRun_short_invoked (engine : String) (L : Nat) (results : Nat × Nat → BackendResult)
    (names : Nat → Nat) (silence : List (Nat × Nat)) (lenMs : Nat) (h : ¬ lenMs > L * 1000) :
    (mainRun true engine L results names silence lenMs).invoked = [(0, lenMs)] := by
  rw [mainRun_short engine L results names silence lenMs h]

lemma mainRun_short_ts (engine : String) (L : Nat) (results : Nat × Nat → BackendResult)
    (names : Nat → Nat) (silence : List (Nat × Nat)) (lenMs : Nat) (h : ¬ lenMs > L * 1000) :
    (mainRun true engine L results names silence lenMs).transcriptions
      = (if engineText engine (results (0, lenMs)) ≠ unintelligibleMsg then
          [⟨1, 0, engineText engine (results (0, lenMs))⟩] else []) := by
  rw [mainRun_short engine L results names silence lenMs h]

/-! ## Claim C3 -/

/-- Conclusion for the amended C3: segmentation output is non-empty and its
enumeration indices are contiguous starting at 0. -/
def C3Concl (silence : List (Nat × Nat)) (lenMs L : Nat) : Prop :=
  applyFallback silence lenMs L ≠ []
  ∧ (applyFallback silence lenMs L).enum.map Prod.fst
      = List.range (applyFallback silence lenMs L).length

/-- C3 (counterexample): when `split_on_silence` returns the empty chunk list
(as it does for an all-silent buffer), the `len(chunks) == 1` guard does not
trigger the fixed-duration fallback, so a buffer of positive duration
(31 s here, chunk length 30 s) yields zero segments, no backend invocation and
no unit — refuting "segmentation produces a non-empty ordered sequence". -/
theorem c3_counterexample :
    (0 : Nat) < 31000 ∧ applyFallback [] 31000 30000 = []
      ∧ (mainRun true "google" 30 (fun _ => BackendResult.ok "oi") (fun n => n) [] 31000).invoked = []
      ∧ (mainRun true "google" 30 (fun _ => BackendResult.ok "oi") (fun n => n) [] 31000).transcriptions
          = [] := by
  decide

/-- C3 (amended): whenever silence-based splitting returns at least one chunk
and the buffer duration and chunk length are positive, the resulting segment
sequence is non-empty, and its indices (as consumed by `enumerate`) are
contiguous starting at 0. -/
theorem c3_segments_nonempty (silence : List (Nat × Nat)) (lenMs L : Nat)
    (hne : silence ≠ []) (hlen : 0 < lenMs) (hL : 0 < L) :
    C3Concl silence lenMs L := by
  constructor
  · unfold applyFallback
    by_cases h1 : silence.length = 1
    · rw [if_pos h1]
      apply List.length_pos.mp
      rw [fixedChunks_length]
      exact numChunks_pos hlen hL
    · rw [if_neg h1]
      exact hne
  · exact List.enum_map_fst _

/-- Witness for `c3_segments_nonempty` at a concrete input. -/
theorem c3_segments_nonempty_witness :
    ([(0, 1000)] : List (Nat × Nat)) ≠ [] ∧ (0 : Nat) < 1000 ∧ (0 : Nat) < 30000
      ∧ C3Concl [(0, 1000)] 1000 30000 :=
  ⟨by decide, by decide, by decide,
    c3_segments_nonempty [(0, 1000)] 1000 30000 (by decide) (by decide) (by decide)⟩

/-! ## Claim C4 -/

/-- Structure of the fixed-duration fallback windows of a buffer of `len` ms
with window length `L` ms: count, shape of each window, contiguity,
strictly increasing starts, start at 0, final end equal to the duration. -/
def FixedChunksProp (len L : Nat) : Prop :=
  0 < numChunks len L
  ∧ (fixedChunks len L).length = numChunks len L
  ∧ (∀ j, j < numChunks len L →
      (fixedChunks len L).getD j (0, 0) = (j * L, min ((j + 1) * L) len))
  ∧ (∀ j, j + 1 < numChunks len L →
      ((fixedChunks len L).getD j (0, 0)).2 = ((fixedChunks len L).getD (j + 1) (0, 0)).1)
  ∧ (∀ j k, j < k → k < numChunks len L →
      ((fixedChunks len L).getD j (0, 0)).1 < ((fixedChunks len L).getD k (0, 0)).1)
  ∧ ((fixedChunks len L).getD 0 (0, 0)).1 = 0
  ∧ ((fixedChunks len L).getD (numChunks len L - 1) (0, 0)).2 = len

/-- C4: the fixed-duration fallback produces consecutive windows of the
configured length in strictly increasing order, contiguous and
non-overlapping, starting at 0, with the last end equal to the buffer
duration; in particular a 45 s buffer with 30 s windows yields exactly
`[0,30s)` and `[30s,45s)`. -/
theorem c4_fixed_fallback_windows (len L : Nat) (hlen : 0 < len) (hL : 0 < L) :
    FixedChunksProp len L
      ∧ fixedChunks 45000 30000 = [(0, 30000), (30000, 45000)] := by
  have hn := numChunks_pos hlen hL
  have hcov := @len_le_numChunks_mul len L hL
  have hlast := numChunks_pred_mul_lt hlen hL
  refine ⟨⟨hn, fixedChunks_length len L, ?_, ?_, ?_, ?_, ?_⟩, by decide⟩
  · intro j hj
    exact fixedChunks_getD hj
  · intro j hj
    rw [fixedChunks_getD (by omega), fixedChunks_getD hj]
    simp only
    apply Nat.min_eq_left
    have h1 : (j + 1) * L ≤ (numChunks len L - 1) * L :=
      Nat.mul_le_mul_right L (by omega)
    omega
  · intro j k hjk hk
    rw [fixedChunks_getD (by omega), fixedChunks_getD hk]
    simp only
    exact Nat.mul_lt_mul_of_lt_of_le hjk (Nat.le_refl L) hL
  · rw [fixedChunks_getD hn]
    simp
  · rw [fixedChunks_getD (by omega)]
    simp only
    rw [Nat.sub_add_cancel hn]
    exact Nat.min_eq_right hcov

/-- Witness for `c4_fixed_fallback_windows` at the 45 s / 30 s scenario. -/
theorem c4_fixed_fallback_windows_witness :
    (0 : Nat) < 45000 ∧ (0 : Nat) < 30000
      ∧ (FixedChunksProp 45000 30000
          ∧ fixedChunks 45000 30000 = [(0, 30000), (30000, 45000)]) :=
  ⟨by decide, by decide, c4_fixed_fallback_windows 45000 30000 (by decide) (by decide)⟩

/-! ## Claim C6 -/

/-- C6: in every modelled run — decode failure, chunked or short, any backend
outcomes including request errors — the set of temporary files deleted is
exactly the set created (as a permutation: the converted WAV is created first
and deleted last, the chunk files are created and deleted inside the loop). -/
theorem c6_cleanup_all_paths (decodeOk : Bool) (engine : String) (L : Nat)
    (results : Nat × Nat → BackendResult) (names : Nat → Nat)
    (silence : List (Nat × Nat)) (lenMs : Nat) :
    List.Perm (mainRun decodeOk engine L results names silence lenMs).deleted
      (mainRun decodeOk engine L results names silence lenMs).created := by
  cases decodeOk with
  | false => exact List.Perm.refl _
  | true =>
    by_cases h : lenMs > L * 1000
    · rw [mainRun_chunked engine L results names silence lenMs h]
      exact List.perm_append_singleton _ _
    · rw [mainRun_short engine L results names silence lenMs h]

/-! ## Claim C7 -/

/-- C7: whenever the input decodes successfully, the normalized buffer has
exactly one channel and a 16 kHz sample rate. -/
theorem c7_normalize_mono_16k (decoded : Option AudioSeg) (buf : AudioSeg) (durMs : Nat)
    (h : convert_audio_to_wav decoded = some (buf, durMs)) :
    buf.channels = 1 ∧ buf.frame_rate = 16000 := by
  cases decoded with
  | none => exact absurd h (by simp [convert_audio_to_wav])
  | some audio =>
    have h' : ({ channels := 1, frame_rate := 16000, lenMs := audio.lenMs } : AudioSeg) = buf := by
      have := h
      simp only [convert_audio_to_wav, set_channels, set_frame_rate, Option.some.injEq,
        Prod.mk.injEq] at this
      exact this.1
    rw [← h']
    exact ⟨rfl, rfl⟩

/-- Witness for `c7_normalize_mono_16k` on a concrete stereo 44.1 kHz input. -/
theorem c7_normalize_mono_16k_witness :
    convert_audio_to_wav (some ⟨2, 44100, 5000⟩) = some (⟨1, 16000, 5000⟩, 5000)
      ∧ ((⟨1, 16000, 5000⟩ : AudioSeg).channels = 1
          ∧ (⟨1, 16000, 5000⟩ : AudioSeg).frame_rate = 16000) :=
  ⟨by decide,
    c7_normalize_mono_16k (some ⟨2, 44100, 5000⟩) ⟨1, 16000, 5000⟩ 5000 (by decide)⟩

/-! ## Claim C8 -/

/-- C8: the run's observable transcript output (units, full text, invoked
segments) is a function of buffer, backend outcomes, engine and chunk length
alone — in particular it is identical across two executions differing only in
the temporary file names the OS hands out. -/
theorem c8_deterministic (decodeOk : Bool) (engine : String) (L : Nat)
    (results : Nat × Nat → BackendResult) (silence : List (Nat × Nat)) (lenMs : Nat)
    (names1 names2 : Nat → Nat) :
    (mainRun decodeOk engine L results names1 silence lenMs).transcriptions
        = (mainRun decodeOk engine L results names2 silence lenMs).transcriptions
    ∧ (mainRun decodeOk engine L results names1 silence lenMs).full_text
        = (mainRun decodeOk engine L results names2 silence lenMs).full_text
    ∧ (mainRun decodeOk engine L results names1 silence lenMs).invoked
        = (mainRun decodeOk engine L results names2 silence lenMs).invoked := by
  cases decodeOk with
  | false => exact ⟨rfl, rfl, rfl⟩
  | true =>
    by_cases h : lenMs > L * 1000
    · rw [mainRun_chunked engine L results names1 silence lenMs h,
        mainRun_chunked engine L results names2 silence lenMs h]
      exact ⟨rfl, rfl, rfl⟩
    · rw [mainRun_short engine L results names1 silence lenMs h,
        mainRun_short engine L results names2 silence lenMs h]
      exact ⟨rfl, rfl, rfl⟩

/-! ## Claim C1 -/

/-- Conclusion for the amended C1: a request error on chunk `j` does not fail
the run; its stringified message is recorded as that chunk's unit, and every
other successfully recognized chunk keeps its unit in the transcript. -/
def C1Concl (L : Nat) (results : Nat × Nat → BackendResult) (names : Nat → Nat)
    (silence : List (Nat × Nat)) (lenMs j : Nat) (m : String) : Prop :=
  (mainRun true "google" L results names silence lenMs).failed = false
  ∧ (⟨j + 1, j * L, pyStrip ("Erro na solicitação: " ++ m)⟩ : TranscriptionUnit)
      ∈ (mainRun true "google" L results names silence lenMs).transcriptions
  ∧ ∀ k t, k < (applyFallback silence lenMs (L * 1000)).length →
      results ((applyFallback silence lenMs (L * 1000)).getD k (0, 0)) = BackendResult.ok t →
      t ≠ "" → t ≠ unintelligibleMsg →
      (⟨k + 1, k * L, pyStrip t⟩ : TranscriptionUnit)
        ∈ (mainRun true "google" L results names silence lenMs).transcriptions

/-- C1 (counterexample): with the backend raising a request error
(`BackendUnavailableError`) on segment index 2 of 5, the run does NOT fail
fast: it completes, the earlier units are exposed, and the error message is
stored as the text of unit 3 — refuting "no Transcript is produced and units
already computed for earlier segments are discarded". -/
theorem c1_counterexample :
    (mainRun true "google" 30
        (fun c => if c.1 == 60000 then BackendResult.requestError "x" else BackendResult.ok "oi")
        (fun n => n) [(0, 150000)] 150000).failed = false
    ∧ (mainRun true "google" 30
        (fun c => if c.1 == 60000 then BackendResult.requestError "x" else BackendResult.ok "oi")
        (fun n => n) [(0, 150000)] 150000).transcriptions
      = [⟨1, 0, "oi"⟩, ⟨2, 30, "oi"⟩, ⟨3, 60, "Erro na solicitação: x"⟩,
          ⟨4, 90, "oi"⟩, ⟨5, 120, "oi"⟩] := by
  decide

/-- C1 (amended): on a backend infrastructure error (`sr.RequestError`) at
chunk `j`, `transcribe_with_google` returns the text
`"Erro na solicitação: " ++ msg` instead of raising, so the chunked run
continues: it does not fail, that text is recorded as unit `j+1`, and all
other successfully recognized chunks keep their units. -/
theorem c1_request_error_recorded (L : Nat) (results : Nat × Nat → BackendResult)
    (names : Nat → Nat) (silence : List (Nat × Nat)) (lenMs j : Nat) (m : String)
    (hlong : lenMs > L * 1000)
    (hj : j < (applyFallback silence lenMs (L * 1000)).length)
    (hreq : results ((applyFallback silence lenMs (L * 1000)).getD j (0, 0))
        = BackendResult.requestError m) :
    C1Concl L results names silence lenMs j m := by
  refine ⟨mainRun_chunked_failed "google" L results names silence lenMs hlong, ?_, ?_⟩
  · rw [mainRun_chunked_ts "google" L results names silence lenMs hlong]
    apply (mem_loopUnits _ 0 _).mpr
    refine ⟨j, hj, ?_⟩
    rw [hreq]
    have hcond : engineText "google" (BackendResult.requestError m) ≠ ""
        ∧ engineText "google" (BackendResult.requestError m) ≠ unintelligibleMsg := by
      rw [engineText_google_requestError]
      exact ⟨errSolic_ne_empty m, errSolic_ne_marker m⟩
    unfold recordUnit
    rw [if_pos hcond, engineText_google_requestError]
    simp
  · intro k t hk hok ht1 ht2
    rw [mainRun_chunked_ts "google" L results names silence lenMs hlong]
    apply (mem_loopUnits _ 0 _).mpr
    refine ⟨k, hk, ?_⟩
    rw [hok]
    have hcond : engineText "google" (BackendResult.ok t) ≠ ""
        ∧ engineText "google" (BackendResult.ok t) ≠ unintelligibleMsg := by
      rw [engineText_google_ok]
      exact ⟨ht1, ht2⟩
    unfold recordUnit
    rw [if_pos hcond, engineText_google_ok]
    simp

/-- Witness for `c1_request_error_recorded` at a concrete 5-chunk run with a
request error on chunk index 2. -/
theorem c1_request_error_recorded_witness :
    150000 > 30 * 1000
    ∧ 2 < (applyFallback [(0, 150000)] 150000 (30 * 1000)).length
    ∧ (fun c : Nat × Nat =>
          if c.1 == 60000 then BackendResult.requestError "y" else BackendResult.ok "oi")
        ((applyFallback [(0, 150000)] 150000 (30 * 1000)).getD 2 (0, 0))
        = BackendResult.requestError "y"
    ∧ C1Concl 30
        (fun c => if c.1 == 60000 then BackendResult.requestError "y" else BackendResult.ok "oi")
        (fun n => n) [(0, 150000)] 150000 2 "y" :=
  ⟨by decide, by decide, by decide,
    c1_request_error_recorded 30
      (fun c => if c.1 == 60000 then BackendResult.requestError "y" else BackendResult.ok "oi")
      (fun n => n) [(0, 150000)] 150000 2 "y" (by decide) (by decide) (by decide)⟩

/-! ## Claim C2 -/

/-- Conclusion for the amended C2: the full text is the space-joined list of
ALL recorded unit texts in chunk order; a marker chunk contributes no unit;
units are in strictly increasing chunk order; and when every recorded text is
non-empty this coincides with the spec's "non-empty unit texts" reading. -/
def C2Concl (engine : String) (L : Nat) (results : Nat × Nat → BackendResult)
    (names : Nat → Nat) (silence : List (Nat × Nat)) (lenMs : Nat) : Prop :=
  ((mainRun true engine L results names silence lenMs).transcriptions ≠ [] →
    (mainRun true engine L results names silence lenMs).full_text
      = String.intercalate " "
          ((mainRun true engine L results names silence lenMs).transcriptions.map
            TranscriptionUnit.text))
  ∧ (∀ j, j < (applyFallback silence lenMs (L * 1000)).length →
      results ((applyFallback silence lenMs (L * 1000)).getD j (0, 0))
          = BackendResult.unknownValue →
      ∀ u ∈ (mainRun true engine L results names silence lenMs).transcriptions,
        u.chunk ≠ j + 1)
  ∧ List.Pairwise (fun a b : TranscriptionUnit => a.chunk < b.chunk)
      (mainRun true engine L results names silence lenMs).transcriptions
  ∧ ((mainRun true engine L results names silence lenMs).transcriptions ≠ [] →
      (∀ u ∈ (mainRun true engine L results names silence lenMs).transcriptions,
        u.text ≠ "") →
      (mainRun true engine L results names silence lenMs).full_text
        = specFullText (mainRun true engine L results names silence lenMs).transcriptions)

/-- C2 (counterexample): a backend text of a single space is truthy and not
the marker, so it is recorded as a unit whose stripped text is empty; the
joined full text `"ola "` then differs from the spec's "concatenation of
exactly the non-empty unit texts", which is `"ola"`. -/
theorem c2_counterexample :
    (mainRun true "google" 30
        (fun c => if c.1 == 0 then BackendResult.ok "ola" else BackendResult.ok " ")
        (fun n => n) [(0, 45000)] 45000).full_text = "ola "
    ∧ specFullText (mainRun true "google" 30
        (fun c => if c.1 == 0 then BackendResult.ok "ola" else BackendResult.ok " ")
        (fun n => n) [(0, 45000)] 45000).transcriptions = "ola"
    ∧ ("ola " : String) ≠ "ola" := by
  decide

/-- C2 (amended): in every chunked run, a marker chunk contributes no unit;
the full text is the space-joined sequence of all recorded unit texts in
chunk-index order; and whenever every recorded text is non-empty (the typical
case — text is stripped, so only whitespace-only backend texts break it) this
equals the spec's join of exactly the non-empty unit texts. -/
theorem c2_marker_omitted_join (engine : String) (L : Nat)
    (results : Nat × Nat → BackendResult) (names : Nat → Nat)
    (silence : List (Nat × Nat)) (lenMs : Nat) (hlong : lenMs > L * 1000) :
    C2Concl engine L results names silence lenMs := by
  refine ⟨?_, ?_, ?_, ?_⟩
  · rw [mainRun_chunked_ts engine L results names silence lenMs hlong,
      mainRun_chunked_full_text engine L results names silence lenMs hlong]
    intro hne
    unfold full_text_of
    rw [if_neg]
    simpa [List.isEmpty_iff] using hne
  · intro j hj hmark u hu heq
    rw [mainRun_chunked_ts engine L results names silence lenMs hlong] at hu
    rcases (mem_loopUnits _ 0 u).mp hu with ⟨k, hk, hrec⟩
    have hchunk : u.chunk = k + 1 := by
      rcases recordUnit_eq_some hrec with ⟨rfl, -⟩
      simp
    have hkj : k = j := by omega
    subst hkj
    rw [hmark, recordUnit_of_marker (engineText_unknown engine)] at hrec
    exact absurd hrec (by simp)
  · rw [mainRun_chunked_ts engine L results names silence lenMs hlong]
    exact loopUnits_pairwise _ 0
  · rw [mainRun_chunked_ts engine L results names silence lenMs hlong,
      mainRun_chunked_full_text engine L results names silence lenMs hlong]
    intro hne hall
    unfold specFullText
    rw [List.filter_eq_self.mpr]
    · unfold full_text_of
      rw [if_neg]
      simpa [List.isEmpty_iff] using hne
    · intro a ha
      rcases List.mem_map.mp ha with ⟨u, hu, rfl⟩
      simpa using hall u hu

/-- Witness for `c2_marker_omitted_join` at a concrete two-chunk run. -/
theorem c2_marker_omitted_join_witness :
    45000 > 30 * 1000
    ∧ C2Concl "google" 30 (fun _ => BackendResult.ok "oi") (fun n => n) [(0, 45000)] 45000 :=
  ⟨by decide,
    c2_marker_omitted_join "google" 30 (fun _ => BackendResult.ok "oi") (fun n => n)
      [(0, 45000)] 45000 (by decide)⟩

/-! ## Claim C5 -/

/-- Conclusion for the amended C5: on a short buffer the backend is invoked
exactly once, on the whole buffer; the result is wrapped as a single-unit
transcript unless it is the unintelligible marker, in which case the
transcript has no units. -/
def C5Concl (engine : String) (L : Nat) (results : Nat × Nat → BackendResult)
    (names : Nat → Nat) (silence : List (Nat × Nat)) (lenMs : Nat) : Prop :=
  (mainRun true engine L results names silence lenMs).invoked = [(0, lenMs)]
  ∧ (engineText engine (results (0, lenMs)) ≠ unintelligibleMsg →
      (mainRun true engine L results names silence lenMs).transcriptions
        = [⟨1, 0, engineText engine (results (0, lenMs))⟩])
  ∧ (engineText engine (results (0, lenMs)) = unintelligibleMsg →
      (mainRun true engine L results names silence lenMs).transcriptions = [])

/-- C5 (counterexample): on a 20 s buffer with 30 s chunk length, a backend
returning the unintelligible marker yields an EMPTY transcript, not a
single-unit one — refuting "wraps the result as a single-unit transcript"
for every result. -/
theorem c5_counterexample :
    20000 ≤ 30 * 1000
    ∧ (mainRun true "google" 30 (fun _ => BackendResult.unknownValue) (fun n => n)
        [] 20000).invoked = [(0, 20000)]
    ∧ (mainRun true "google" 30 (fun _ => BackendResult.unknownValue) (fun n => n)
        [] 20000).transcriptions = []
    ∧ (mainRun true "google" 30 (fun _ => BackendResult.unknownValue) (fun n => n)
        [] 20000).transcriptions.length ≠ 1 := by
  decide

/-- C5 (amended): for a buffer whose duration is at most the chunk length the
backend is invoked exactly once on the whole buffer, and the result is
wrapped as a single-unit transcript unless it is the unintelligible marker
(then the transcript is empty). -/
theorem c5_short_run (engine : String) (L : Nat) (results : Nat × Nat → BackendResult)
    (names : Nat → Nat) (silence : List (Nat × Nat)) (lenMs : Nat)
    (hshort : lenMs ≤ L * 1000) :
    C5Concl engine L results names silence lenMs := by
  have h : ¬ lenMs > L * 1000 := by omega
  refine ⟨mainRun_short_invoked engine L results names silence lenMs h, ?_, ?_⟩
  · intro hne
    rw [mainRun_short_ts engine L results names silence lenMs h, if_pos hne]
  · intro heq
    rw [mainRun_short_ts engine L results names silence lenMs h, if_neg]
    intro hc
    exact hc heq

/-- Witness for `c5_short_run` at a concrete short run. -/
theorem c5_short_run_witness :
    20000 ≤ 30 * 1000
    ∧ C5Concl "google" 30 (fun _ => BackendResult.ok "oi") (fun n => n) [] 20000 :=
  ⟨by decide,
    c5_short_run "google" 30 (fun _ => BackendResult.ok "oi") (fun n => n) [] 20000
      (by decide)⟩

/-! ## Claim C9 -/

/-- C9 (counterexample): the timestamped listing line produced by the code has
only a single start timestamp `[HH:MM:SS]` — it contains neither the claimed
`HH:MM:SS - HH:MM:SS` range separator nor the claimed subtitle-caption
`-->` arrow (no such output exists anywhere in the program). -/
theorem c9_counterexample :
    chunkLine ⟨1, 0, "ola"⟩ = "**Chunk 1 [00:00:00]**: ola"
    ∧ hasSeq (chunkLine ⟨1, 0, "ola"⟩).toList " - ".toList = false
    ∧ hasSeq (chunkLine ⟨1, 0, "ola"⟩).toList "-->".toList = false := by
  decide

/-- Conclusion for the amended C9: `format_timestamp` renders zero-padded
`HH:MM:SS`, and the per-unit listing line is the pure function
`**Chunk i [HH:MM:SS]**: text` of the unit (start timestamp only). -/
def C9Concl (hrs m s : Nat) : Prop :=
  format_timestamp (hrs * 3600 + m * 60 + s) = pad2 hrs ++ ":" ++ pad2 m ++ ":" ++ pad2 s
  ∧ (∀ t : TranscriptionUnit,
      chunkLine t
        = "**Chunk " ++ toString t.chunk ++ " [" ++ format_timestamp t.start_time
            ++ "]**: " ++ t.text)
  ∧ format_timestamp 3725 = "01:02:05"

/-- C9 (amended): the code produces, as pure functions of the transcript, the
plain concatenated text and a per-unit listing `**Chunk i [HH:MM:SS]**: text`
whose single timestamp is the zero-padded `HH:MM:SS` rendering of the unit's
start time; no end timestamp and no subtitle-caption output are produced. -/
theorem c9_timestamp_format (hrs m s : Nat) (hm : m < 60) (hs : s < 60) :
    C9Concl hrs m s := by
  refine ⟨?_, fun t => rfl, by decide⟩
  have e1 : (hrs * 3600 + m * 60 + s) / 3600 = hrs := by omega
  have e2 : ((hrs * 3600 + m * 60 + s) % 3600) / 60 = m := by omega
  have e3 : (hrs * 3600 + m * 60 + s) % 60 = s := by omega
  unfold format_timestamp
  rw [e1, e2, e3]

/-- Witness for `c9_timestamp_format` at 1 h 2 min 5 s. -/
theorem c9_timestamp_format_witness :
    2 < 60 ∧ 5 < 60 ∧ C9Concl 1 2 5 :=
  ⟨by decide, by decide, c9_timestamp_format 1 2 5 (by decide) (by decide)⟩

/-! ## Claim C10 -/

/-- The index-based part of C10: under the fixed-duration fallback the chunk
at position `j` really starts at `j * chunkLength` (so recorded start times
match real offsets there), while a concrete silence-based split (chunks
`[0,5s)`, `[5s,12s)` with chunk length 10 s) records start `10 s` for a chunk
that actually starts at `5 s`. -/
def C10Rest : Prop :=
  (∀ lenMs L j, j < (fixedChunks lenMs (L * 1000)).length →
      ((fixedChunks lenMs (L * 1000)).getD j (0, 0)).1 = (j * L) * 1000)
  ∧ ((applyFallback [(0, 5000), (5000, 12000)] 12000 (10 * 1000)).getD 1 (0, 0)).1 = 5000
  ∧ ((mainRun true "google" 10 (fun _ => BackendResult.ok "a") (fun n => n)
        [(0, 5000), (5000, 12000)] 12000).transcriptions.getD 1 ⟨0, 0, ""⟩).start_time * 1000
      = 10000
  ∧ (10000 : Nat) ≠ 5000

/-- C10: every unit recorded by a chunked run has
`start_time = (chunk index) * chunkLength` regardless of how the chunks were
produced; this equals the chunk's true offset under the fixed-duration
fallback but not under silence-based splitting (concrete mismatch included). -/
theorem c10_start_times (engine : String) (L : Nat)
    (results : Nat × Nat → BackendResult) (names : Nat → Nat)
    (silence : List (Nat × Nat)) (lenMs : Nat) (u : TranscriptionUnit)
    (hlong : lenMs > L * 1000)
    (hu : u ∈ (mainRun true engine L results names silence lenMs).transcriptions) :
    u.start_time = (u.chunk - 1) * L ∧ C10Rest := by
  constructor
  · rw [mainRun_chunked_ts engine L results names silence lenMs hlong] at hu
    rcases (mem_loopUnits _ 0 u).mp hu with ⟨j, hj, hrec⟩
    rcases recordUnit_eq_some hrec with ⟨rfl, -⟩
    simp
  · refine ⟨?_, by decide, by decide, by decide⟩
    intro len2 L2 j hj
    rw [fixedChunks_length] at hj
    rw [fixedChunks_getD hj]
    simp only
    exact (Nat.mul_assoc j L2 1000).symm

/-- Witness for `c10_start_times` at a concrete silence-split run. -/
theorem c10_start_times_witness :
    12000 > 10 * 1000
    ∧ (⟨2, 10, "a"⟩ : TranscriptionUnit)
        ∈ (mainRun true "google" 10 (fun _ => BackendResult.ok "a") (fun n => n)
            [(0, 5000), (5000, 12000)] 12000).transcriptions
    ∧ ((⟨2, 10, "a"⟩ : TranscriptionUnit).start_time
          = ((⟨2, 10, "a"⟩ : TranscriptionUnit).chunk - 1) * 10 ∧ C10Rest) :=
  ⟨by decide, by decide,
    c10_start_times "google" 10 (fun _ => BackendResult.ok "a") (fun n => n)
      [(0, 5000), (5000, 12000)] 12000 ⟨2, 10, "a"⟩ (by decide) (by decide)⟩

end Transcricao
